import Mathlib

/-!
Shallow embedding of `homie/device_base.py` (Homie4 `Device_Base`).

The device's interactions with the MQTT transport are modelled as a trace of
`Event`s (publish / subscribe / unsubscribe / set-will calls); methods become
state-passing functions `Device → Device × List Event`.  Time-dependent inputs
(clock, timestamp string, network identity) are collected in an `Env` record
passed explicitly.
-/

namespace Homie

/-- Payload values handed to the MQTT client's publish call: the Python code
passes either strings or numbers (ints/seconds). -/
inductive Payload where
  | str : String → Payload
  | num : Nat → Payload
deriving DecidableEq, Repr

/-- Modelled from the spec: the MQTT client (in `homie/mqtt/homie_mqtt_client.py`,
not part of the sources here) puts every payload on the wire as a string,
stringifying numeric values ("all topics are strings on the wire
(numeric/time values stringified)"). -/
def Payload.wire : Payload → String
  | .str s => s
  | .num n => toString n

/-- One call made by `Device_Base` on its MQTT client. -/
inductive Event where
  | publish : String → Payload → Bool → Nat → Event
  | subscribe : String → Nat → Event
  | unsubscribe : String → Event
  | set_will : String → String → Bool → Nat → Event
deriving DecidableEq, Repr

/-- Topic of an event (first argument of every client call). -/
def Event.topicOf : Event → String
  | .publish t _ _ _ => t
  | .subscribe t _ => t
  | .unsubscribe t => t
  | .set_will t _ _ _ => t

/-- Whether an event is a last-will registration (`set_will`). -/
def Event.isWill : Event → Bool
  | .set_will _ _ _ _ => true
  | _ => false

/-- Whether an event is a publish to topic `t`. -/
def Event.isPubTo (t : String) : Event → Bool
  | .publish t2 _ _ _ => t2 = t
  | _ => false

/-- Topic construction, `"/".join((a, b))` as used for topic construction. -/
def topic_join (a b : String) : String := a ++ "/" ++ b

/-- The `DEVICE_STATES` list from `device_base.py`. -/
def DEVICE_STATES : List String :=
  ["init", "ready", "disconnected", "sleeping", "alert", "lost"]

/-- The `EXTENSIONS` list from `device_base.py` (the supported extension names). -/
def EXTENSIONS : List String := ["stats", "firmware", "meta"]

/-- Modelled from the spec: `homie.__version__` (the package version constant,
whose module is not among the sources); its exact value is irrelevant to the
claims. -/
def homie_dunder_version : String := "homie4-version"

/-- Modelled from the spec: `sys.platform`, the platform tag of the running
interpreter; its exact value is irrelevant to the claims. -/
def sys_platform : String := "linux"

/-- The merged Homie settings record (keys of `HOMIE_SETTINGS`). -/
structure HomieSettings where
  version : String
  topic : String
  fw_name : String
  fw_version : String
  update_interval : Nat
  implementation : String
deriving DecidableEq, Repr

/-- The `HOMIE_SETTINGS` defaults from `device_base.py`. -/
def HOMIE_SETTINGS : HomieSettings :=
  { version := "4.0.0"
    topic := "homie"
    fw_name := "homie4"
    fw_version := homie_dunder_version
    update_interval := 60
    implementation := sys_platform }

/-- User-supplied settings: each recognized key optionally overridden. -/
structure PartialSettings where
  version : Option String := none
  topic : Option String := none
  fw_name : Option String := none
  fw_version : Option String := none
  update_interval : Option Nat := none
  implementation : Option String := none
deriving DecidableEq, Repr

/-- Python `_homie_validate_settings`: per-key merge of supplied settings over the
defaults (missing keys take the default). -/
def homie_validate_settings (s : PartialSettings) : HomieSettings :=
  { version := s.version.getD HOMIE_SETTINGS.version
    topic := s.topic.getD HOMIE_SETTINGS.topic
    fw_name := s.fw_name.getD HOMIE_SETTINGS.fw_name
    fw_version := s.fw_version.getD HOMIE_SETTINGS.fw_version
    update_interval := s.update_interval.getD HOMIE_SETTINGS.update_interval
    implementation := s.implementation.getD HOMIE_SETTINGS.implementation }

/-- A child node, at the contract `Device_Base` consumes: its id, the
topic/payload pairs its own `publish_attributes(retain, qos)` publishes, and
the topic → handler map of `get_subscriptions()` (handlers as opaque ids). -/
structure Node where
  id : String
  attrs : List (String × String)
  subscriptions : List (String × Nat)
deriving DecidableEq, Repr

/-- Environment for time- and network-dependent values: the current clock
(`time.time()`, in seconds), the formatted timestamp `datetime.now().strftime`,
and the transport's mac/ip identity. -/
structure Env where
  now : Nat
  lastupdate : String
  mac : String
  ip : String
deriving DecidableEq, Repr

/-- The `Device_Base` instance state. -/
structure Device where
  instance_number : Nat
  device_id : String
  name : String
  extensions : List String
  _state : String
  homie_settings : HomieSettings
  topic : String
  retained : Bool
  qos : Nat
  nodes : List Node
  start_time : Nat
  nodes_published : Bool
  _mqtt_connected : Bool
  mqtt_subscription_handlers : List (String × Nat)
deriving DecidableEq, Repr

/-- Association-list lookup (Python `topic in dict` / `dict[topic]`). -/
def dict_lookup (k : String) : List (String × Nat) → Option Nat
  | [] => none
  | p :: rest => if p.1 = k then some p.2 else dict_lookup k rest

/-- Association-list insert with dict semantics: overwrite in place if the key
exists, else append. -/
def dict_insert (k : String) (v : Nat) : List (String × Nat) → List (String × Nat)
  | [] => [(k, v)]
  | p :: rest => if p.1 = k then (k, v) :: rest else p :: dict_insert k v rest

/-- Association-list delete (`del dict[topic]`, on the key-present path). -/
def dict_erase (k : String) : List (String × Nat) → List (String × Nat)
  | [] => []
  | p :: rest => if p.1 = k then rest else p :: dict_erase k rest

/-- Handler id of the device's own `broadcast_handler`. -/
def broadcast_handler_id : Nat := 0

namespace Device

/-- The `state` property setter: a value in `DEVICE_STATES` is stored and
published retained to `…/$state`; anything else is logged and dropped. -/
def set_state (d : Device) (s : String) : Device × List Event :=
  if s ∈ DEVICE_STATES then
    ({ d with _state := s },
     [Event.publish (topic_join d.topic "$state") (Payload.str s) true 1])
  else
    (d, [])

/-- Python `publish_statastics` (sic): `$stats/interval`, `$stats/uptime`
(`time.time() - self.start_time`), `$stats/lastupdate`. -/
def publish_statastics (env : Env) (d : Device) (retain : Bool) (qos : Nat) : List Event :=
  [Event.publish (topic_join d.topic "$stats/interval")
      (Payload.num d.homie_settings.update_interval) retain qos,
   Event.publish (topic_join d.topic "$stats/uptime")
      (Payload.num (env.now - d.start_time)) retain qos,
   Event.publish (topic_join d.topic "$stats/lastupdate")
      (Payload.str env.lastupdate) retain qos]

/-- Python `publish_firmware`: `$localip`, `$mac`, `$fw/name`, `$fw/version`,
`$implementation`. -/
def publish_firmware (env : Env) (d : Device) (retain : Bool) (qos : Nat) : List Event :=
  [Event.publish (topic_join d.topic "$localip") (Payload.str env.ip) retain qos,
   Event.publish (topic_join d.topic "$mac") (Payload.str env.mac) retain qos,
   Event.publish (topic_join d.topic "$fw/name")
      (Payload.str d.homie_settings.fw_name) retain qos,
   Event.publish (topic_join d.topic "$fw/version")
      (Payload.str d.homie_settings.fw_version) retain qos,
   Event.publish (topic_join d.topic "$implementation")
      (Payload.str d.homie_settings.implementation) retain qos]

/-- Python `publish_extensions`: publish `$extensions` (comma-joined) unless the join
is empty, then the stats and firmware blocks when those extensions are
declared. -/
def publish_extensions (env : Env) (d : Device) (retain : Bool) (qos : Nat) : List Event :=
  let exts := String.intercalate "," d.extensions
  (if exts ≠ "" then
     [Event.publish (topic_join d.topic "$extensions") (Payload.str exts) retain qos]
   else [])
  ++ (if "stats" ∈ d.extensions then publish_statastics env d retain qos else [])
  ++ (if "firmware" ∈ d.extensions then publish_firmware env d retain qos else [])

/-- Python `publish_attributes`: `$homie`, `$name`, `$implementation`, the extension
block, then `self.state = 'ready'` (which publishes `$state`, retained). -/
def publish_attributes (env : Env) (d : Device) (retain : Bool) (qos : Nat) :
    Device × List Event :=
  let e1 := [Event.publish (topic_join d.topic "$homie")
               (Payload.str d.homie_settings.version) retain qos,
             Event.publish (topic_join d.topic "$name") (Payload.str d.name) retain qos,
             Event.publish (topic_join d.topic "$implementation")
               (Payload.str d.homie_settings.implementation) retain qos]
  let e2 := publish_extensions env d retain qos
  let r := set_state d "ready"
  (r.1, e1 ++ e2 ++ r.2)

/-- A node's `publish_attributes(retain, qos)` contract, as events. -/
def node_publish_attributes (n : Node) (retain : Bool) (qos : Nat) : List Event :=
  n.attrs.map (fun p => Event.publish p.1 (Payload.str p.2) retain qos)

/-- Python `publish_nodes`: publish the comma-joined node-id list at `$nodes`, set the
`nodes_published` latch, then each node's attributes in registry order. -/
def publish_nodes (d : Device) (retain : Bool) (qos : Nat) : Device × List Event :=
  ({ d with nodes_published := true },
   Event.publish (topic_join d.topic "$nodes")
       (Payload.str (String.intercalate "," (d.nodes.map Node.id))) retain qos
     :: (d.nodes.map (fun n => node_publish_attributes n retain qos)).flatten)

/-- Python `add_subscription`: record topic → handler (overwrite) and subscribe. -/
def add_subscription (d : Device) (topic : String) (handler : Nat) (qos : Nat) :
    Device × List Event :=
  ({ d with mqtt_subscription_handlers :=
      dict_insert topic handler d.mqtt_subscription_handlers },
   [Event.subscribe topic qos])

/-- Python `remove_subscription`: the transport unsubscribe is issued first; then
`del` of the registry entry raises `KeyError` when the topic is absent (third
component `true` = the lookup error was raised). -/
def remove_subscription (d : Device) (topic : String) : Device × List Event × Bool :=
  if (dict_lookup topic d.mqtt_subscription_handlers).isSome then
    ({ d with mqtt_subscription_handlers :=
        dict_erase topic d.mqtt_subscription_handlers },
     [Event.unsubscribe topic], false)
  else
    (d, [Event.unsubscribe topic], true)

/-- Register a list of (topic, handler) subscriptions in order (qos 0, the
`add_subscription` default used by `subscribe_topics`). -/
def add_subscriptions_list (d : Device) : List (String × Nat) → Device × List Event
  | [] => (d, [])
  | p :: rest =>
    let r1 := add_subscription d p.1 p.2 0
    let r2 := add_subscriptions_list r1.1 rest
    (r2.1, r1.2 ++ r2.2)

/-- Fold of per-node subscription registration over the node list. -/
def node_subs_fold (d : Device) : List Node → Device × List Event
  | [] => (d, [])
  | n :: rest =>
    let r1 := add_subscriptions_list d n.subscriptions
    let r2 := node_subs_fold r1.1 rest
    (r2.1, r1.2 ++ r2.2)

/-- Python `subscribe_topics`: the device's `$broadcast/#` topic, then every node's
declared subscriptions. -/
def subscribe_topics (d : Device) : Device × List Event :=
  let r1 := add_subscription d (topic_join d.topic "$broadcast/#") broadcast_handler_id 0
  let r2 := node_subs_fold r1.1 d.nodes
  (r2.1, r1.2 ++ r2.2)

/-- Python `mqtt_on_connection`: on `connected = true`, if the guard flag is clear,
set it and run publish-attributes → publish-nodes → subscribe-topics →
(conditional) set-will; otherwise do nothing.  On `connected = false`, clear
the guard flag.  `shared` is the client's `using_shared_mqtt_client`. -/
def mqtt_on_connection (env : Env) (shared : Bool) (d : Device) (connected : Bool) :
    Device × List Event :=
  if connected then
    if d._mqtt_connected = false then
      let d1 := { d with _mqtt_connected := true }
      let r1 := publish_attributes env d1 true 1
      let r2 := publish_nodes r1.1 true 1
      let r3 := subscribe_topics r2.1
      if shared = false ∨ d.instance_number = 1 then
        (r3.1, r1.2 ++ r2.2 ++ r3.2 ++
          [Event.set_will (topic_join r3.1.topic "$state") "lost" true 1])
      else
        (r3.1, r1.2 ++ r2.2 ++ r3.2)
    else
      (d, [])
  else
    ({ d with _mqtt_connected := false }, [])

/-- Python `mqtt_on_message`: a registered topic's handler is invoked (returned as an
invocation triple) only when `retain` is false; retained messages and unknown
topics produce no invocation. -/
def mqtt_on_message (d : Device) (topic payload : String) (retain : Bool) (qos : Nat) :
    List (Nat × String × String) :=
  match dict_lookup topic d.mqtt_subscription_handlers with
  | some h => if retain = false then [(h, topic, payload)] else []
  | none => []

end Device

/-- Character class of the Homie id grammar: lowercase ascii letters, digits,
hyphen. -/
def idChar (c : Char) : Bool :=
  (97 ≤ c.toNat && c.toNat ≤ 122) || (48 ≤ c.toNat && c.toNat ≤ 57) || c.toNat = 45

/-- Modelled from the spec: `validate_id` from `homie/support/helpers.py` (not
among the sources) — a device id is valid iff it is a non-empty string of
lowercase alphanumerics and hyphens that neither starts nor ends with a
hyphen. -/
def validate_id (s : String) : Bool :=
  s.data.all idChar
    && (match s.data with | [] => false | c :: _ => c ≠ '-')
    && (match s.data.reverse with | [] => false | c :: _ => c ≠ '-')

/-- Zero-padded 4-digit decimal rendering, `"{:04d}".format n`. -/
def pad4 (n : Nat) : String :=
  if n < 10 then "000" ++ toString n
  else if n < 100 then "00" ++ toString n
  else if n < 1000 then "0" ++ toString n
  else toString n

/-- Python `generate_device_id`: `"device{:04d}".format(self.instance_number)`. -/
def generate_device_id (instance_number : Nat) : String :=
  "device" ++ pad4 instance_number

/-- Python `Device_Base.__init__`: the asserts become `Except.error`; on success the
fully initialized device is returned.  `instance_number` stands for the
incremented global `instance_count`. -/
def device_init (instance_number : Nat) (device_id : Option String)
    (name : Option String) (settings : PartialSettings) (extensions : List String) :
    Except String Device :=
  let id := match device_id with
            | none => generate_device_id instance_number
            | some i => i
  if validate_id id = false then
    Except.error ("Invalid device id " ++ id)
  else
    match name with
    | none => Except.error "assert name"
    | some nm =>
      if nm = "" then Except.error "assert name"
      else if extensions.all (fun e => e ∈ EXTENSIONS) = false then
        Except.error "assert extension in EXTENSIONS"
      else
        let hs := homie_validate_settings settings
        Except.ok
          { instance_number := instance_number
            device_id := id
            name := nm
            extensions := extensions
            _state := "init"
            homie_settings := hs
            topic := topic_join hs.topic id
            retained := true
            qos := 1
            nodes := []
            start_time := 0
            nodes_published := false
            _mqtt_connected := false
            mqtt_subscription_handlers := [] }

/-- Run a sequence of `mqtt_on_connection` deliveries on one device,
concatenating the traces. -/
def run_connections (env : Env) (shared : Bool) (d : Device) :
    List Bool → Device × List Event
  | [] => (d, [])
  | b :: bs =>
    let r1 := Device.mqtt_on_connection env shared d b
    let r2 := run_connections env shared r1.1 bs
    (r2.1, r1.2 ++ r2.2)

/-- Run a sequence of connection events over two devices sharing one transport
(`shared = true`): each list element is (delivered-to-first?, connected). -/
def run_pair (env : Env) (s : Device × Device) :
    List (Bool × Bool) → (Device × Device) × List Event
  | [] => (s, [])
  | e :: rest =>
    let step :=
      if e.1 then
        let r := Device.mqtt_on_connection env true s.1 e.2
        ((r.1, s.2), r.2)
      else
        let r := Device.mqtt_on_connection env true s.2 e.2
        ((s.1, r.1), r.2)
    let r2 := run_pair env step.1 rest
    (r2.1, step.2 ++ r2.2)

/-- Number of last-will registration calls in a trace. -/
def countSetWill (l : List Event) : Nat := l.countP (fun e => e.isWill)

/-- Number of connect edges of the first device in a two-device event run,
given the first device's current guard flag. -/
def countConnectEdgesFirst : Bool → List (Bool × Bool) → Nat
  | _, [] => 0
  | flag, e :: rest =>
    if e.1 then
      if e.2 then (if flag then 0 else 1) + countConnectEdgesFirst true rest
      else countConnectEdgesFirst false rest
    else
      countConnectEdgesFirst flag rest

/-! Concrete fixtures used by witnesses and counterexamples. -/

/-- A sample environment. -/
def sampleEnv : Env :=
  { now := 100, lastupdate := "01/01/2026 00:00:00", mac := "00:11:22:33:44:55", ip := "10.0.0.2" }

/-- A second sample environment with a later clock. -/
def sampleEnv2 : Env :=
  { now := 200, lastupdate := "01/01/2026 00:01:40", mac := "00:11:22:33:44:55", ip := "10.0.0.2" }

/-- A sample device as produced by a successful construction (first instance). -/
def sampleDevice : Device :=
  { instance_number := 1
    device_id := "kitchen-sensor"
    name := "Kitchen"
    extensions := ["stats", "firmware", "meta"]
    _state := "init"
    homie_settings := HOMIE_SETTINGS
    topic := topic_join "homie" "kitchen-sensor"
    retained := true
    qos := 1
    nodes := []
    start_time := 0
    nodes_published := false
    _mqtt_connected := false
    mqtt_subscription_handlers := [] }

/-- A second sample device sharing the transport (second instance). -/
def sampleDevice2 : Device :=
  { sampleDevice with
      instance_number := 2
      device_id := "hall-sensor"
      topic := topic_join "homie" "hall-sensor" }

/-- The sample device with one registered subscription handler (id 5). -/
def sampleDeviceSub : Device :=
  { sampleDevice with mqtt_subscription_handlers := [("homie/kitchen-sensor/relay/power/set", 5)] }

end Homie

namespace Homie

/-! ## Claim theorems -/

/-- C2: assigning `device.state = v` with `v` in the fixed state enumeration
sets the in-memory state to `v` and publishes exactly one retained message `v`
to the device's `$state` topic; assigning a value outside the enumeration
leaves the state unchanged and publishes nothing. -/
theorem C2_state_setter (d : Device) (v : String) :
    (v ∈ DEVICE_STATES →
      Device.set_state d v =
        ({ d with _state := v },
         [Event.publish (topic_join d.topic "$state") (Payload.str v) true 1])) ∧
    (v ∉ DEVICE_STATES → Device.set_state d v = (d, [])) := by
  constructor <;> intro h <;> simp [Device.set_state, h]

/-- Witness for C2 at concrete inputs: `"sleeping"` is accepted and published,
`"bogus"` is a silent no-op. -/
theorem C2_state_setter_witness :
    Device.set_state sampleDevice "sleeping" =
      ({ sampleDevice with _state := "sleeping" },
       [Event.publish (topic_join sampleDevice.topic "$state") (Payload.str "sleeping") true 1]) ∧
    Device.set_state sampleDevice "bogus" = (sampleDevice, []) :=
  ⟨(C2_state_setter sampleDevice "sleeping").1 (by decide),
   (C2_state_setter sampleDevice "bogus").2 (by decide)⟩

/-- C6: a retained inbound message never invokes the registered handler; a
non-retained message on a registered topic invokes it exactly once with
`(topic, payload)`; a message on an unregistered topic is ignored. -/
theorem C6_on_message (d : Device) (topic payload : String) (retain : Bool) (qos : Nat) :
    (retain = true → Device.mqtt_on_message d topic payload retain qos = []) ∧
    (∀ h, dict_lookup topic d.mqtt_subscription_handlers = some h → retain = false →
      Device.mqtt_on_message d topic payload retain qos = [(h, topic, payload)]) ∧
    (dict_lookup topic d.mqtt_subscription_handlers = none →
      Device.mqtt_on_message d topic payload retain qos = []) := by
  refine ⟨fun hr => ?_, fun h hl hr => ?_, fun hl => ?_⟩
  · unfold Device.mqtt_on_message
    cases dict_lookup topic d.mqtt_subscription_handlers <;> simp [hr]
  · unfold Device.mqtt_on_message
    rw [hl]
    simp [hr]
  · unfold Device.mqtt_on_message
    rw [hl]

/-- Witness for C6 at concrete inputs: retained message dropped, fresh message
dispatched once to handler 5, unknown topic ignored. -/
theorem C6_on_message_witness :
    Device.mqtt_on_message sampleDeviceSub "homie/kitchen-sensor/relay/power/set" "on" true 1 = [] ∧
    Device.mqtt_on_message sampleDeviceSub "homie/kitchen-sensor/relay/power/set" "on" false 1 =
      [(5, "homie/kitchen-sensor/relay/power/set", "on")] ∧
    Device.mqtt_on_message sampleDeviceSub "homie/other/topic" "x" false 1 = [] :=
  ⟨(C6_on_message sampleDeviceSub "homie/kitchen-sensor/relay/power/set" "on" true 1).1 rfl,
   (C6_on_message sampleDeviceSub "homie/kitchen-sensor/relay/power/set" "on" false 1).2.1
      5 (by decide) rfl,
   (C6_on_message sampleDeviceSub "homie/other/topic" "x" false 1).2.2 (by decide)⟩

/-- C9: for a device with the stats extension enabled, the extension block
publishes `$stats/interval` carrying the numeric interval and `$stats/uptime`
carrying the numeric uptime, and both payloads go on the wire as their decimal
string renderings. -/
theorem C9_stats_stringified (env : Env) (d : Device) (retain : Bool) (qos : Nat)
    (h : "stats" ∈ d.extensions) :
    Event.publish (topic_join d.topic "$stats/interval")
        (Payload.num d.homie_settings.update_interval) retain qos
      ∈ Device.publish_extensions env d retain qos ∧
    Event.publish (topic_join d.topic "$stats/uptime")
        (Payload.num (env.now - d.start_time)) retain qos
      ∈ Device.publish_extensions env d retain qos ∧
    (Payload.num d.homie_settings.update_interval).wire
      = toString d.homie_settings.update_interval ∧
    (Payload.num (env.now - d.start_time)).wire = toString (env.now - d.start_time) := by
  unfold Device.publish_extensions
  simp [h, Device.publish_statastics, Payload.wire]

/-- Witness for C9 at the sample device (stats enabled, interval 60,
uptime 100). -/
theorem C9_stats_stringified_witness :
    Event.publish (topic_join sampleDevice.topic "$stats/interval")
        (Payload.num sampleDevice.homie_settings.update_interval) true 1
      ∈ Device.publish_extensions sampleEnv sampleDevice true 1 ∧
    Event.publish (topic_join sampleDevice.topic "$stats/uptime")
        (Payload.num (sampleEnv.now - sampleDevice.start_time)) true 1
      ∈ Device.publish_extensions sampleEnv sampleDevice true 1 ∧
    (Payload.num sampleDevice.homie_settings.update_interval).wire
      = toString sampleDevice.homie_settings.update_interval ∧
    (Payload.num (sampleEnv.now - sampleDevice.start_time)).wire
      = toString (sampleEnv.now - sampleDevice.start_time) :=
  C9_stats_stringified sampleEnv sampleDevice true 1 (by decide)

/-- C10: removing a subscription for a topic absent from the registry raises
the missing-key error, yet the transport unsubscribe call was already issued,
and the registry (indeed the whole device) is left unchanged. -/
theorem C10_remove_missing (d : Device) (topic : String)
    (h : dict_lookup topic d.mqtt_subscription_handlers = none) :
    Device.remove_subscription d topic = (d, [Event.unsubscribe topic], true) := by
  unfold Device.remove_subscription
  simp [h]

/-- Witness for C10 at the sample device (empty registry). -/
theorem C10_remove_missing_witness :
    Device.remove_subscription sampleDevice "homie/kitchen-sensor/$broadcast/#" =
      (sampleDevice, [Event.unsubscribe "homie/kitchen-sensor/$broadcast/#"], true) :=
  C10_remove_missing sampleDevice "homie/kitchen-sensor/$broadcast/#" (by decide)

end Homie

namespace Homie

/-! ## Helper lemmas -/

/-- Appending distinct suffixes to the same string yields distinct strings. -/
lemma string_append_ne (s : String) {a b : String} (h : a ≠ b) : s ++ a ≠ s ++ b := by
  intro he
  apply h
  have hd : (s ++ a).data = (s ++ b).data := by rw [he]
  rw [String.data_append, String.data_append] at hd
  exact String.ext (List.append_cancel_left hd)

/-- Distinct topic suffixes yield distinct joined topics. -/
lemma topic_join_ne (t : String) {a b : String} (h : a ≠ b) :
    topic_join t a ≠ topic_join t b :=
  string_append_ne (t ++ "/") h

/-- The accumulator is a prefix of `String.intercalate.go`'s result. -/
lemma intercalate_go_data (s : String) :
    ∀ (l : List String) (acc : String),
      ∃ t, (String.intercalate.go acc s l).data = acc.data ++ t
  | [], acc => ⟨[], by simp [String.intercalate.go]⟩
  | a :: l, acc => by
    obtain ⟨t, ht⟩ := intercalate_go_data s l (acc ++ s ++ a)
    refine ⟨s.data ++ a.data ++ t, ?_⟩
    calc (String.intercalate.go acc s (a :: l)).data
        = (String.intercalate.go (acc ++ s ++ a) s l).data := rfl
      _ = (acc ++ s ++ a).data ++ t := ht
      _ = acc.data ++ (s.data ++ a.data ++ t) := by
          simp [String.data_append]

/-- Comma-joining a list headed by a non-empty string is non-empty. -/
lemma intercalate_ne_empty {x : String} (hx : x.data ≠ []) (l : List String) :
    String.intercalate "," (x :: l) ≠ "" := by
  intro h
  obtain ⟨t, ht⟩ := intercalate_go_data "," l x
  have hdata : (String.intercalate "," (x :: l)).data = x.data ++ t := ht
  rw [h] at hdata
  exact hx (List.append_eq_nil.mp hdata.symm).1

end Homie

namespace Homie

/-- C3: `publish_attributes` publishes `$homie`, `$name`, `$implementation`,
then the extension block, and finally assigns state `ready` — so the device
ends in state `ready` and the last event is the retained `$state = "ready"`
publish. -/
theorem C3_publish_attributes_order (env : Env) (d : Device) (retain : Bool) (qos : Nat) :
    Device.publish_attributes env d retain qos =
      ({ d with _state := "ready" },
       [Event.publish (topic_join d.topic "$homie")
          (Payload.str d.homie_settings.version) retain qos,
        Event.publish (topic_join d.topic "$name") (Payload.str d.name) retain qos,
        Event.publish (topic_join d.topic "$implementation")
          (Payload.str d.homie_settings.implementation) retain qos]
       ++ Device.publish_extensions env d retain qos
       ++ [Event.publish (topic_join d.topic "$state") (Payload.str "ready") true 1]) ∧
    (Device.publish_attributes env d retain qos).1._state = "ready" ∧
    (Device.publish_attributes env d retain qos).2.getLast? =
      some (Event.publish (topic_join d.topic "$state") (Payload.str "ready") true 1) := by
  have hready : ("ready" : String) ∈ DEVICE_STATES := by decide
  refine ⟨?_, ?_, ?_⟩
  · unfold Device.publish_attributes Device.set_state
    simp [hready]
  · unfold Device.publish_attributes Device.set_state
    simp [hready]
  · unfold Device.publish_attributes Device.set_state
    rw [if_pos hready]
    rw [List.getLast?_append]
    rfl

/-- C8: with no declared extensions there is no publish to `$extensions`; with
a non-empty declared list, `$extensions` is published exactly once, carrying
the comma-joined extension names. -/
theorem C8_extensions_publish (env : Env) (d : Device) (retain : Bool) (qos : Nat)
    (hvalid : ∀ e ∈ d.extensions, e ∈ EXTENSIONS) :
    (d.extensions = [] →
      (Device.publish_extensions env d retain qos).countP
        (Event.isPubTo (topic_join d.topic "$extensions")) = 0) ∧
    (d.extensions ≠ [] →
      (Device.publish_extensions env d retain qos).countP
        (Event.isPubTo (topic_join d.topic "$extensions")) = 1 ∧
      Event.publish (topic_join d.topic "$extensions")
          (Payload.str (String.intercalate "," d.extensions)) retain qos
        ∈ Device.publish_extensions env d retain qos) := by
  have hstats : topic_join d.topic "$stats/interval" ≠ topic_join d.topic "$extensions" :=
    topic_join_ne d.topic (by decide)
  have hup : topic_join d.topic "$stats/uptime" ≠ topic_join d.topic "$extensions" :=
    topic_join_ne d.topic (by decide)
  have hlast : topic_join d.topic "$stats/lastupdate" ≠ topic_join d.topic "$extensions" :=
    topic_join_ne d.topic (by decide)
  have hip : topic_join d.topic "$localip" ≠ topic_join d.topic "$extensions" :=
    topic_join_ne d.topic (by decide)
  have hmac : topic_join d.topic "$mac" ≠ topic_join d.topic "$extensions" :=
    topic_join_ne d.topic (by decide)
  have hfwn : topic_join d.topic "$fw/name" ≠ topic_join d.topic "$extensions" :=
    topic_join_ne d.topic (by decide)
  have hfwv : topic_join d.topic "$fw/version" ≠ topic_join d.topic "$extensions" :=
    topic_join_ne d.topic (by decide)
  have himpl : topic_join d.topic "$implementation" ≠ topic_join d.topic "$extensions" :=
    topic_join_ne d.topic (by decide)
  have hcstats : (Device.publish_statastics env d retain qos).countP
      (Event.isPubTo (topic_join d.topic "$extensions")) = 0 := by
    simp [Device.publish_statastics, Event.isPubTo, hstats, hup, hlast]
  have hcfw : (Device.publish_firmware env d retain qos).countP
      (Event.isPubTo (topic_join d.topic "$extensions")) = 0 := by
    simp [Device.publish_firmware, Event.isPubTo, hip, hmac, hfwn, hfwv, himpl]
  constructor
  · intro hempty
    simp [Device.publish_extensions, hempty,
      show String.intercalate "," ([] : List String) = "" from rfl]
  · intro hne
    obtain ⟨e, rest, hext⟩ : ∃ e rest, d.extensions = e :: rest := by
      cases hx : d.extensions with
      | nil => exact absurd hx hne
      | cons e rest => exact ⟨e, rest, rfl⟩
    have hehead : e ∈ EXTENSIONS := hvalid e (by rw [hext]; exact List.mem_cons_self e rest)
    have hedata : e.data ≠ [] := by
      fin_cases hehead <;> decide
    have hjoin : String.intercalate "," d.extensions ≠ "" := by
      rw [hext]
      exact intercalate_ne_empty hedata rest
    have hsplit : Device.publish_extensions env d retain qos =
        [Event.publish (topic_join d.topic "$extensions")
            (Payload.str (String.intercalate "," d.extensions)) retain qos]
        ++ (if "stats" ∈ d.extensions then Device.publish_statastics env d retain qos else [])
        ++ (if "firmware" ∈ d.extensions then Device.publish_firmware env d retain qos
            else []) := by
      simp [Device.publish_extensions, hjoin]
    constructor
    · rw [hsplit, List.countP_append, List.countP_append]
      have h1 : (([Event.publish (topic_join d.topic "$extensions")
          (Payload.str (String.intercalate "," d.extensions)) retain qos]).countP
          (Event.isPubTo (topic_join d.topic "$extensions"))) = 1 := by
        simp [Event.isPubTo]
      rw [h1]
      have h2 : ((if "stats" ∈ d.extensions then Device.publish_statastics env d retain qos
          else []).countP (Event.isPubTo (topic_join d.topic "$extensions"))) = 0 := by
        split
        · exact hcstats
        · rfl
      have h3 : ((if "firmware" ∈ d.extensions then Device.publish_firmware env d retain qos
          else []).countP (Event.isPubTo (topic_join d.topic "$extensions"))) = 0 := by
        split
        · exact hcfw
        · rfl
      rw [h2, h3]
    · rw [hsplit]
      simp

/-- Witness for C8: the sample device (three extensions) publishes
`$extensions` once as `"stats,firmware,meta"`; a device with no extensions
publishes nothing to `$extensions`. -/
theorem C8_extensions_publish_witness :
    ({ sampleDevice with extensions := [] } : Device).extensions = [] ∧
    (Device.publish_extensions sampleEnv { sampleDevice with extensions := [] } true 1).countP
      (Event.isPubTo (topic_join sampleDevice.topic "$extensions")) = 0 ∧
    (Device.publish_extensions sampleEnv sampleDevice true 1).countP
      (Event.isPubTo (topic_join sampleDevice.topic "$extensions")) = 1 ∧
    Event.publish (topic_join sampleDevice.topic "$extensions")
        (Payload.str (String.intercalate "," sampleDevice.extensions)) true 1
      ∈ Device.publish_extensions sampleEnv sampleDevice true 1 := by
  refine ⟨rfl, ?_, ?_, ?_⟩
  · exact (C8_extensions_publish sampleEnv { sampleDevice with extensions := [] } true 1
      (by decide)).1 rfl
  · exact ((C8_extensions_publish sampleEnv sampleDevice true 1 (by decide)).2 (by decide)).1
  · exact ((C8_extensions_publish sampleEnv sampleDevice true 1 (by decide)).2 (by decide)).2

end Homie

namespace Homie

/-- Whether a construction attempt produced a device. -/
def init_ok (r : Except String Device) : Bool :=
  match r with
  | Except.ok _ => true
  | Except.error _ => false

/-- An id failing `validate_id` makes construction fail. -/
lemma device_init_invalid_id (inst : Nat) (id : String) (h : validate_id id = false)
    (name : Option String) (settings : PartialSettings) (exts : List String) :
    init_ok (device_init inst (some id) name settings exts) = false := by
  unfold device_init
  simp [h, init_ok]

/-- An id containing an ascii uppercase letter fails `validate_id`. -/
lemma validate_id_upper {id : String} {c : Char} (hc : c ∈ id.data)
    (h1 : 65 ≤ c.toNat) (h2 : c.toNat ≤ 90) : validate_id id = false := by
  have hch : idChar c = false := by
    cases hb : idChar c
    · rfl
    · exfalso
      simp only [idChar, Bool.or_eq_true, Bool.and_eq_true, decide_eq_true_eq] at hb
      omega
  have hall : id.data.all idChar = false := by
    rw [List.all_eq_false]
    exact ⟨c, hc, by simp [hch]⟩
  unfold validate_id
  simp [hall]

/-- An id starting with a hyphen fails `validate_id`. -/
lemma validate_id_leading {id : String} (h : id.data.head? = some '-') :
    validate_id id = false := by
  unfold validate_id
  cases hd : id.data with
  | nil => rw [hd] at h; cases h
  | cons c rest =>
    rw [hd] at h
    simp only [List.head?_cons, Option.some_inj] at h
    subst h
    simp [hd]

/-- An id ending with a hyphen fails `validate_id`. -/
lemma validate_id_trailing {id : String} (h : id.data.getLast? = some '-') :
    validate_id id = false := by
  have h2 : id.data.reverse.head? = some '-' := by
    rw [List.head?_reverse]
    exact h
  unfold validate_id
  cases hd : id.data.reverse with
  | nil => rw [hd] at h2; cases h2
  | cons c rest =>
    rw [hd] at h2
    simp only [List.head?_cons, Option.some_inj] at h2
    subst h2
    simp

/-- A missing name makes construction fail (whatever the id). -/
lemma device_init_no_name (inst : Nat) (id : String) (settings : PartialSettings)
    (exts : List String) :
    init_ok (device_init inst (some id) none settings exts) = false := by
  unfold device_init
  cases h : validate_id id <;> simp [h, init_ok]

/-- An empty name makes construction fail (whatever the id). -/
lemma device_init_empty_name (inst : Nat) (id : String) (settings : PartialSettings)
    (exts : List String) :
    init_ok (device_init inst (some id) (some "") settings exts) = false := by
  unfold device_init
  cases h : validate_id id <;> simp [h, init_ok]

/-- An extension outside the supported set makes construction fail. -/
lemma device_init_bad_ext (inst : Nat) (id : String) (name : Option String)
    (settings : PartialSettings) (exts : List String) {e : String}
    (he : e ∈ exts) (hno : e ∉ EXTENSIONS) :
    init_ok (device_init inst (some id) name settings exts) = false := by
  have hex : ∃ x ∈ exts, x ∉ EXTENSIONS := ⟨e, he, hno⟩
  unfold device_init
  cases hv : validate_id id
  · simp [hv, init_ok]
  · cases name with
    | none => simp [hv, init_ok]
    | some nm =>
      by_cases hnm : nm = ""
      · simp [hv, hnm, init_ok]
      · simp [hv, hnm, hex, init_ok]

/-- C7: construction fails for every device id violating the identifier
grammar (empty, containing an uppercase letter, leading or trailing hyphen),
for a missing or empty name, and for any extension outside the supported set;
it succeeds — yielding the fully initialized device — for a grammar-valid id,
a non-empty name and supported extensions. -/
theorem C7_construction_validation (inst : Nat) (settings : PartialSettings)
    (id nm : String) (name : Option String) (exts : List String) :
    init_ok (device_init inst (some "") name settings exts) = false ∧
    ((∃ c ∈ id.data, 65 ≤ c.toNat ∧ c.toNat ≤ 90) →
      init_ok (device_init inst (some id) name settings exts) = false) ∧
    (id.data.head? = some '-' →
      init_ok (device_init inst (some id) name settings exts) = false) ∧
    (id.data.getLast? = some '-' →
      init_ok (device_init inst (some id) name settings exts) = false) ∧
    init_ok (device_init inst (some id) none settings exts) = false ∧
    init_ok (device_init inst (some id) (some "") settings exts) = false ∧
    ((∃ e ∈ exts, e ∉ EXTENSIONS) →
      init_ok (device_init inst (some id) name settings exts) = false) ∧
    (validate_id id = true → nm ≠ "" → (∀ e ∈ exts, e ∈ EXTENSIONS) →
      device_init inst (some id) (some nm) settings exts =
        Except.ok
          { instance_number := inst
            device_id := id
            name := nm
            extensions := exts
            _state := "init"
            homie_settings := homie_validate_settings settings
            topic := topic_join (homie_validate_settings settings).topic id
            retained := true
            qos := 1
            nodes := []
            start_time := 0
            nodes_published := false
            _mqtt_connected := false
            mqtt_subscription_handlers := [] }) := by
  refine ⟨?_, ?_, ?_, ?_, ?_, ?_, ?_, ?_⟩
  · exact device_init_invalid_id inst "" (by decide) name settings exts
  · rintro ⟨c, hc, h1, h2⟩
    exact device_init_invalid_id inst id (validate_id_upper hc h1 h2) name settings exts
  · intro h
    exact device_init_invalid_id inst id (validate_id_leading h) name settings exts
  · intro h
    exact device_init_invalid_id inst id (validate_id_trailing h) name settings exts
  · exact device_init_no_name inst id settings exts
  · exact device_init_empty_name inst id settings exts
  · rintro ⟨e, he, hno⟩
    exact device_init_bad_ext inst id name settings exts he hno
  · intro hv hnm hall
    have hall2 : exts.all (fun x => x ∈ EXTENSIONS) = true := by
      rw [List.all_eq_true]
      intro e he
      simpa using hall e he
    unfold device_init
    simp [hv, hnm, hall2]

/-- Witness for C7 at concrete inputs: empty id, `"Kitchen"` (uppercase),
`"-kitchen"`, `"kitchen-"`, missing name, empty name, extension `"bogus"` all
fail; `"kitchen-sensor"` with name `"Kitchen"` and the three supported
extensions succeeds and yields `sampleDevice`. -/
theorem C7_construction_validation_witness :
    init_ok (device_init 1 (some "") (some "Kitchen") {} ["stats"]) = false ∧
    init_ok (device_init 1 (some "Kitchen") (some "Kitchen") {} ["stats"]) = false ∧
    init_ok (device_init 1 (some "-kitchen") (some "Kitchen") {} ["stats"]) = false ∧
    init_ok (device_init 1 (some "kitchen-") (some "Kitchen") {} ["stats"]) = false ∧
    init_ok (device_init 1 (some "kitchen-sensor") none {} ["stats"]) = false ∧
    init_ok (device_init 1 (some "kitchen-sensor") (some "") {} ["stats"]) = false ∧
    init_ok (device_init 1 (some "kitchen-sensor") (some "Kitchen") {} ["bogus"]) = false ∧
    device_init 1 (some "kitchen-sensor") (some "Kitchen") {} ["stats", "firmware", "meta"]
      = Except.ok sampleDevice := by
  refine ⟨?_, ?_, ?_, ?_, ?_, ?_, ?_, ?_⟩
  · exact (C7_construction_validation 1 {} "x" "y" (some "Kitchen") ["stats"]).1
  · exact (C7_construction_validation 1 {} "Kitchen" "y" (some "Kitchen") ["stats"]).2.1
      ⟨'K', by decide, by decide, by decide⟩
  · exact (C7_construction_validation 1 {} "-kitchen" "y" (some "Kitchen") ["stats"]).2.2.1
      (by decide)
  · exact (C7_construction_validation 1 {} "kitchen-" "y" (some "Kitchen") ["stats"]).2.2.2.1
      (by decide)
  · exact (C7_construction_validation 1 {} "kitchen-sensor" "y" none ["stats"]).2.2.2.2.1
  · exact (C7_construction_validation 1 {} "kitchen-sensor" "y" none ["stats"]).2.2.2.2.2.1
  · exact (C7_construction_validation 1 {} "kitchen-sensor" "y" (some "Kitchen")
      ["bogus"]).2.2.2.2.2.2.1 ⟨"bogus", by decide, by decide⟩
  · have h := (C7_construction_validation 1 {} "kitchen-sensor" "Kitchen" none
      ["stats", "firmware", "meta"]).2.2.2.2.2.2.2 (by decide) (by decide) (by decide)
    rw [h]
    rfl

end Homie

namespace Homie

/-- The method `publish_attributes` changes only the device's `_state` (to `"ready"`). -/
lemma publish_attributes_fst (env : Env) (d : Device) (retain : Bool) (qos : Nat) :
    (Device.publish_attributes env d retain qos).1 = { d with _state := "ready" } := by
  unfold Device.publish_attributes Device.set_state
  simp [show ("ready" : String) ∈ DEVICE_STATES from by decide]

/-- The trace of `publish_attributes` does not depend on the stored `_state`. -/
lemma publish_attributes_state_irrel (env : Env) (s : String) (d : Device)
    (retain : Bool) (qos : Nat) :
    (Device.publish_attributes env { d with _state := s } retain qos).2
      = (Device.publish_attributes env d retain qos).2 := rfl

/-- The topic sequence of `publish_attributes` does not depend on the
environment (only payloads do). -/
lemma publish_attributes_topics_env (env env2 : Env) (d : Device) (retain : Bool) (qos : Nat) :
    ((Device.publish_attributes env d retain qos).2).map Event.topicOf
      = ((Device.publish_attributes env2 d retain qos).2).map Event.topicOf := by
  unfold Device.publish_attributes Device.set_state Device.publish_extensions
    Device.publish_statastics Device.publish_firmware
  by_cases h1 : String.intercalate "," d.extensions = "" <;>
    by_cases h2 : "stats" ∈ d.extensions <;>
      by_cases h3 : "firmware" ∈ d.extensions <;>
        simp [h1, h2, h3, Event.topicOf]

/-- C4 (amended): two successive `publish_attributes()` calls publish the same
sequence of topics both times, each call leaves the device in state `ready`,
and when the clock readings and network identity coincide the two traces are
identical (payloads included). -/
theorem C4_publish_attributes_repeat (env env2 : Env) (d : Device) :
    (Device.publish_attributes env d true 1).1._state = "ready" ∧
    (Device.publish_attributes env2 (Device.publish_attributes env d true 1).1 true 1).1._state
      = "ready" ∧
    ((Device.publish_attributes env2 (Device.publish_attributes env d true 1).1 true 1).2).map
        Event.topicOf
      = ((Device.publish_attributes env d true 1).2).map Event.topicOf ∧
    (Device.publish_attributes env (Device.publish_attributes env d true 1).1 true 1).2
      = (Device.publish_attributes env d true 1).2 := by
  refine ⟨?_, ?_, ?_, ?_⟩
  · rw [publish_attributes_fst]
  · rw [publish_attributes_fst, publish_attributes_fst]
  · rw [publish_attributes_fst, publish_attributes_state_irrel]
    exact publish_attributes_topics_env env2 env d true 1
  · rw [publish_attributes_fst, publish_attributes_state_irrel]

/-- Counterexample to C4 as stated: for the sample device (stats extension
enabled) a second `publish_attributes()` call under a later clock produces a
different publish sequence (the `$stats/uptime` and `$stats/lastupdate`
payloads change), so the two outputs are not identical. -/
theorem C4_counterexample :
    ¬ ((Device.publish_attributes sampleEnv2
          (Device.publish_attributes sampleEnv sampleDevice true 1).1 true 1).2
        = (Device.publish_attributes sampleEnv sampleDevice true 1).2) := by
  decide

end Homie

namespace Homie

/-- A second "connected" signal without an intervening disconnect is a no-op. -/
lemma mqtt_on_connection_noop (env : Env) (shared : Bool) (d : Device)
    (h : d._mqtt_connected = true) :
    Device.mqtt_on_connection env shared d true = (d, []) := by
  unfold Device.mqtt_on_connection
  simp [h]

/-- A disconnect signal only clears the guard flag and emits nothing. -/
lemma mqtt_on_connection_disconnect (env : Env) (shared : Bool) (d : Device) :
    Device.mqtt_on_connection env shared d false
      = ({ d with _mqtt_connected := false }, []) := by
  unfold Device.mqtt_on_connection
  simp

/-- Registering a subscription list only touches the handler registry. -/
lemma add_subscriptions_list_fields (subs : List (String × Nat)) :
    ∀ d : Device,
      (Device.add_subscriptions_list d subs).1._mqtt_connected = d._mqtt_connected ∧
      (Device.add_subscriptions_list d subs).1.instance_number = d.instance_number ∧
      (Device.add_subscriptions_list d subs).1.topic = d.topic := by
  induction subs with
  | nil => exact fun d => ⟨rfl, rfl, rfl⟩
  | cons p rest ih =>
    intro d
    have h := ih (Device.add_subscription d p.1 p.2 0).1
    unfold Device.add_subscriptions_list
    simpa using h

/-- Folding node subscriptions only touches the handler registry. -/
lemma node_subs_fold_fields (ns : List Node) :
    ∀ d : Device,
      (Device.node_subs_fold d ns).1._mqtt_connected = d._mqtt_connected ∧
      (Device.node_subs_fold d ns).1.instance_number = d.instance_number ∧
      (Device.node_subs_fold d ns).1.topic = d.topic := by
  induction ns with
  | nil => exact fun d => ⟨rfl, rfl, rfl⟩
  | cons n rest ih =>
    intro d
    have h1 := add_subscriptions_list_fields n.subscriptions d
    have h2 := ih (Device.add_subscriptions_list d n.subscriptions).1
    unfold Device.node_subs_fold
    exact ⟨h2.1.trans h1.1, h2.2.1.trans h1.2.1, h2.2.2.trans h1.2.2⟩

/-- The method `subscribe_topics` only touches the handler registry. -/
lemma subscribe_topics_fields (d : Device) :
    (Device.subscribe_topics d).1._mqtt_connected = d._mqtt_connected ∧
    (Device.subscribe_topics d).1.instance_number = d.instance_number ∧
    (Device.subscribe_topics d).1.topic = d.topic := by
  unfold Device.subscribe_topics
  have h := node_subs_fold_fields d.nodes
    (Device.add_subscription d (topic_join d.topic "$broadcast/#") broadcast_handler_id 0).1
  simpa using h

/-- On a connect edge the result device is the one produced by the full
publish-attributes → publish-nodes → subscribe-topics sequence. -/
lemma mqtt_on_connection_fst_true (env : Env) (shared : Bool) (d : Device)
    (h : d._mqtt_connected = false) :
    (Device.mqtt_on_connection env shared d true).1 =
      (Device.subscribe_topics
        (Device.publish_nodes
          (Device.publish_attributes env { d with _mqtt_connected := true } true 1).1
          true 1).1).1 := by
  unfold Device.mqtt_on_connection
  by_cases hc : shared = false ∨ d.instance_number = 1 <;> simp [h, hc]

/-- After any connect signal the guard flag is set. -/
lemma mqtt_on_connection_connected (env : Env) (shared : Bool) (d : Device) :
    (Device.mqtt_on_connection env shared d true).1._mqtt_connected = true := by
  by_cases h : d._mqtt_connected = false
  · rw [mqtt_on_connection_fst_true env shared d h, (subscribe_topics_fields _).1]
    have hn : (Device.publish_nodes
        (Device.publish_attributes env { d with _mqtt_connected := true } true 1).1
        true 1).1._mqtt_connected =
        (Device.publish_attributes env { d with _mqtt_connected := true } true 1).1._mqtt_connected :=
      rfl
    rw [hn, publish_attributes_fst]
  · have h2 : d._mqtt_connected = true := by
      revert h
      cases d._mqtt_connected <;> simp
    rw [mqtt_on_connection_noop env shared d h2]
    exact h2

/-- Delivering only further "connected" signals to an already-connected device
produces no events and leaves it unchanged. -/
lemma run_connections_trues (env : Env) (shared : Bool) (d : Device)
    (h : d._mqtt_connected = true) :
    ∀ bs : List Bool, (∀ b ∈ bs, b = true) → run_connections env shared d bs = (d, [])
  | [], _ => rfl
  | b :: rest, hbs => by
    have hb : b = true := hbs b (List.mem_cons_self b rest)
    subst hb
    unfold run_connections
    rw [mqtt_on_connection_noop env shared d h]
    simpa using run_connections_trues env shared d h rest
      (fun x hx => hbs x (List.mem_cons_of_mem _ hx))

/-- C1: from a disconnected guard state, `mqtt_on_connection(true)` runs the
full sequence — publish attributes, publish nodes, subscribe topics, then the
conditional last-will registration, in that order — and any further
`mqtt_on_connection(true)` signals produce no publish, subscribe or last-will
call; `mqtt_on_connection(false)` merely clears the guard flag. -/
theorem C1_connect_sequence_once (env : Env) (shared : Bool) (d : Device)
    (h : d._mqtt_connected = false) :
    (Device.mqtt_on_connection env shared d true).2 =
      (Device.publish_attributes env { d with _mqtt_connected := true } true 1).2
      ++ (Device.publish_nodes
            (Device.publish_attributes env { d with _mqtt_connected := true } true 1).1
            true 1).2
      ++ (Device.subscribe_topics
            (Device.publish_nodes
              (Device.publish_attributes env { d with _mqtt_connected := true } true 1).1
              true 1).1).2
      ++ (if shared = false ∨ d.instance_number = 1 then
            [Event.set_will (topic_join d.topic "$state") "lost" true 1]
          else []) ∧
    (∀ bs : List Bool, (∀ b ∈ bs, b = true) →
      run_connections env shared (Device.mqtt_on_connection env shared d true).1 bs
        = ((Device.mqtt_on_connection env shared d true).1, [])) ∧
    Device.mqtt_on_connection env shared d false
      = ({ d with _mqtt_connected := false }, []) := by
  refine ⟨?_, ?_, mqtt_on_connection_disconnect env shared d⟩
  · have htopic : (Device.subscribe_topics
        (Device.publish_nodes
          (Device.publish_attributes env { d with _mqtt_connected := true } true 1).1
          true 1).1).1.topic = d.topic := by
      rw [(subscribe_topics_fields _).2.2]
      have hn : (Device.publish_nodes
          (Device.publish_attributes env { d with _mqtt_connected := true } true 1).1
          true 1).1.topic =
          (Device.publish_attributes env { d with _mqtt_connected := true } true 1).1.topic :=
        rfl
      rw [hn, publish_attributes_fst]
    unfold Device.mqtt_on_connection
    by_cases hc : shared = false ∨ d.instance_number = 1 <;> simp [h, hc, htopic]
  · exact fun bs hbs =>
      run_connections_trues env shared _ (mqtt_on_connection_connected env shared d) bs hbs

/-- Witness for C1 at the sample device: after the first connect signal, two
further "connected" signals are no-ops, and a disconnect clears the flag. -/
theorem C1_connect_sequence_once_witness :
    run_connections sampleEnv true
        (Device.mqtt_on_connection sampleEnv true sampleDevice true).1 [true, true]
      = ((Device.mqtt_on_connection sampleEnv true sampleDevice true).1, []) ∧
    Device.mqtt_on_connection sampleEnv true sampleDevice false
      = ({ sampleDevice with _mqtt_connected := false }, []) :=
  ⟨(C1_connect_sequence_once sampleEnv true sampleDevice rfl).2.1 [true, true] (by decide),
   (C1_connect_sequence_once sampleEnv true sampleDevice rfl).2.2⟩

end Homie

namespace Homie

/-- The count of will registrations distributes over append. -/
lemma countSetWill_append (a b : List Event) :
    countSetWill (a ++ b) = countSetWill a + countSetWill b :=
  List.countP_append _ a b

/-- A trace all of whose events are not will registrations counts zero. -/
lemma countSetWill_eq_zero {l : List Event} (h : ∀ e ∈ l, e.isWill = false) :
    countSetWill l = 0 := by
  unfold countSetWill
  rw [List.countP_eq_zero]
  intro a ha
  simp [h a ha]

/-- The empty trace counts zero. -/
lemma countSetWill_nil : countSetWill [] = 0 := rfl

/-- The stats block never registers a last will. -/
lemma countSetWill_publish_statastics (env : Env) (d : Device) (r : Bool) (q : Nat) :
    countSetWill (Device.publish_statastics env d r q) = 0 := rfl

/-- The firmware block never registers a last will. -/
lemma countSetWill_publish_firmware (env : Env) (d : Device) (r : Bool) (q : Nat) :
    countSetWill (Device.publish_firmware env d r q) = 0 := rfl

/-- The state setter never registers a last will. -/
lemma countSetWill_set_state (d : Device) (s : String) :
    countSetWill (Device.set_state d s).2 = 0 := by
  unfold Device.set_state
  split <;> rfl

/-- The extension block never registers a last will. -/
lemma countSetWill_publish_extensions (env : Env) (d : Device) (r : Bool) (q : Nat) :
    countSetWill (Device.publish_extensions env d r q) = 0 := by
  unfold Device.publish_extensions
  simp only [countSetWill_append]
  split <;> split <;> split <;> rfl

/-- The method `publish_attributes` never registers a last will. -/
lemma countSetWill_publish_attributes (env : Env) (d : Device) (r : Bool) (q : Nat) :
    countSetWill (Device.publish_attributes env d r q).2 = 0 := by
  unfold Device.publish_attributes
  show countSetWill (_ ++ _ ++ _) = 0
  rw [countSetWill_append, countSetWill_append, countSetWill_publish_extensions,
    countSetWill_set_state]
  rfl

/-- A node's attribute block never registers a last will. -/
lemma countSetWill_node_attrs (n : Node) (r : Bool) (q : Nat) :
    countSetWill (Device.node_publish_attributes n r q) = 0 := by
  apply countSetWill_eq_zero
  intro e he
  unfold Device.node_publish_attributes at he
  obtain ⟨p, _, hp⟩ := List.mem_map.mp he
  rw [← hp]
  rfl

/-- The method `publish_nodes` never registers a last will. -/
lemma countSetWill_publish_nodes (d : Device) (r : Bool) (q : Nat) :
    countSetWill (Device.publish_nodes d r q).2 = 0 := by
  apply countSetWill_eq_zero
  intro e he
  unfold Device.publish_nodes at he
  rcases List.mem_cons.mp he with h | h
  · rw [h]
    rfl
  · obtain ⟨l, hl, hel⟩ := List.mem_flatten.mp h
    obtain ⟨n, _, hn⟩ := List.mem_map.mp hl
    rw [← hn] at hel
    obtain ⟨p, _, hp⟩ := List.mem_map.mp hel
    rw [← hp]
    rfl

/-- Subscription registration never registers a last will. -/
lemma countSetWill_add_subscriptions_list (subs : List (String × Nat)) :
    ∀ d : Device, countSetWill (Device.add_subscriptions_list d subs).2 = 0 := by
  induction subs with
  | nil => exact fun d => rfl
  | cons p rest ih =>
    intro d
    unfold Device.add_subscriptions_list
    show countSetWill (_ ++ _) = 0
    rw [countSetWill_append, ih]
    rfl

/-- Node-subscription folding never registers a last will. -/
lemma countSetWill_node_subs_fold (ns : List Node) :
    ∀ d : Device, countSetWill (Device.node_subs_fold d ns).2 = 0 := by
  induction ns with
  | nil => exact fun d => rfl
  | cons n rest ih =>
    intro d
    unfold Device.node_subs_fold
    show countSetWill (_ ++ _) = 0
    rw [countSetWill_append, countSetWill_add_subscriptions_list, ih]

/-- The method `subscribe_topics` never registers a last will. -/
lemma countSetWill_subscribe_topics (d : Device) :
    countSetWill (Device.subscribe_topics d).2 = 0 := by
  unfold Device.subscribe_topics
  show countSetWill (_ ++ _) = 0
  rw [countSetWill_append, countSetWill_node_subs_fold]
  rfl

/-- On a connect edge the emitted trace is the full sequence followed by the
conditional last-will registration. -/
lemma mqtt_on_connection_trace_true (env : Env) (shared : Bool) (d : Device)
    (h : d._mqtt_connected = false) :
    (Device.mqtt_on_connection env shared d true).2 =
      (Device.publish_attributes env { d with _mqtt_connected := true } true 1).2
      ++ (Device.publish_nodes
            (Device.publish_attributes env { d with _mqtt_connected := true } true 1).1
            true 1).2
      ++ (Device.subscribe_topics
            (Device.publish_nodes
              (Device.publish_attributes env { d with _mqtt_connected := true } true 1).1
              true 1).1).2
      ++ (if shared = false ∨ d.instance_number = 1 then
            [Event.set_will (topic_join d.topic "$state") "lost" true 1]
          else []) := by
  have htopic : (Device.subscribe_topics
      (Device.publish_nodes
        (Device.publish_attributes env { d with _mqtt_connected := true } true 1).1
        true 1).1).1.topic = d.topic := by
    rw [(subscribe_topics_fields _).2.2]
    have hn : (Device.publish_nodes
        (Device.publish_attributes env { d with _mqtt_connected := true } true 1).1
        true 1).1.topic =
        (Device.publish_attributes env { d with _mqtt_connected := true } true 1).1.topic :=
      rfl
    rw [hn, publish_attributes_fst]
  unfold Device.mqtt_on_connection
  by_cases hc : shared = false ∨ d.instance_number = 1 <;> simp [h, hc, htopic]

/-- Exactly one last-will registration occurs per connect edge, and only when
the client is unshared or the device is the first instance. -/
lemma countSetWill_on_connection (env : Env) (shared : Bool) (d : Device) (c : Bool) :
    countSetWill (Device.mqtt_on_connection env shared d c).2 =
      if c = true ∧ d._mqtt_connected = false ∧ (shared = false ∨ d.instance_number = 1)
      then 1 else 0 := by
  cases c with
  | false =>
    rw [mqtt_on_connection_disconnect]
    simp [countSetWill_nil]
  | true =>
    by_cases hf : d._mqtt_connected = false
    · rw [mqtt_on_connection_trace_true env shared d hf]
      rw [countSetWill_append, countSetWill_append, countSetWill_append,
        countSetWill_publish_attributes, countSetWill_publish_nodes,
        countSetWill_subscribe_topics]
      by_cases hc : shared = false ∨ d.instance_number = 1
      · rw [if_pos hc, if_pos ⟨rfl, hf, hc⟩]
        rfl
      · rw [if_neg hc, if_neg (fun hcon => hc hcon.2.2)]
        rfl
    · have h2 : d._mqtt_connected = true := by
        revert hf
        cases d._mqtt_connected <;> simp
      rw [mqtt_on_connection_noop env shared d h2]
      rw [if_neg (by simp [h2])]
      rfl

/-- The connect handler preserves the instance number. -/
lemma mqtt_on_connection_instance (env : Env) (shared : Bool) (d : Device) (c : Bool) :
    (Device.mqtt_on_connection env shared d c).1.instance_number = d.instance_number := by
  cases c with
  | false => rw [mqtt_on_connection_disconnect]
  | true =>
    by_cases hf : d._mqtt_connected = false
    · rw [mqtt_on_connection_fst_true env shared d hf, (subscribe_topics_fields _).2.1]
      have hn : (Device.publish_nodes
          (Device.publish_attributes env { d with _mqtt_connected := true } true 1).1
          true 1).1.instance_number =
          (Device.publish_attributes env { d with _mqtt_connected := true } true 1).1.instance_number :=
        rfl
      rw [hn, publish_attributes_fst]
    · have h2 : d._mqtt_connected = true := by
        revert hf
        cases d._mqtt_connected <;> simp
      rw [mqtt_on_connection_noop env shared d h2]

/-- The connect handler leaves the guard flag equal to the delivered signal. -/
lemma mqtt_on_connection_flag (env : Env) (shared : Bool) (d : Device) (c : Bool) :
    (Device.mqtt_on_connection env shared d c).1._mqtt_connected = c := by
  cases c with
  | false => rw [mqtt_on_connection_disconnect]
  | true => exact mqtt_on_connection_connected env shared d

end Homie

namespace Homie

/-- Over a run of connection events for two devices sharing one transport, the
number of last-will registrations equals the number of connect edges of the
first-created instance. -/
lemma run_pair_countSetWill (env : Env) :
    ∀ (evs : List (Bool × Bool)) (d1 d2 : Device),
      d1.instance_number = 1 → d2.instance_number ≠ 1 →
      countSetWill (run_pair env (d1, d2) evs).2
        = countConnectEdgesFirst d1._mqtt_connected evs
  | [], d1, d2, _, _ => rfl
  | (first, conn) :: rest, d1, d2, h1, h2 => by
    cases first with
    | true =>
      have hstep : run_pair env (d1, d2) ((true, conn) :: rest)
          = ((run_pair env ((Device.mqtt_on_connection env true d1 conn).1, d2) rest).1,
             (Device.mqtt_on_connection env true d1 conn).2
               ++ (run_pair env ((Device.mqtt_on_connection env true d1 conn).1, d2) rest).2) :=
        rfl
      rw [hstep]
      show countSetWill (_ ++ _) = _
      rw [countSetWill_append,
        run_pair_countSetWill env rest (Device.mqtt_on_connection env true d1 conn).1 d2
          (by rw [mqtt_on_connection_instance]; exact h1) h2,
        countSetWill_on_connection, mqtt_on_connection_flag]
      cases conn with
      | true =>
        simp only [countConnectEdgesFirst, h1, or_true, and_true, true_and, if_true]
        cases hflag : d1._mqtt_connected <;> simp [hflag]
      | false =>
        simp [countConnectEdgesFirst]
    | false =>
      have hstep : run_pair env (d1, d2) ((false, conn) :: rest)
          = ((run_pair env (d1, (Device.mqtt_on_connection env true d2 conn).1) rest).1,
             (Device.mqtt_on_connection env true d2 conn).2
               ++ (run_pair env (d1, (Device.mqtt_on_connection env true d2 conn).1) rest).2) :=
        rfl
      rw [hstep]
      show countSetWill (_ ++ _) = _
      rw [countSetWill_append,
        run_pair_countSetWill env rest d1 (Device.mqtt_on_connection env true d2 conn).1 h1
          (by rw [mqtt_on_connection_instance]; exact h2),
        countSetWill_on_connection]
      have hz : (if conn = true ∧ d2._mqtt_connected = false
          ∧ (true = false ∨ d2.instance_number = 1) then 1 else 0) = 0 := by
        rw [if_neg]
        rintro ⟨-, -, hor | hor⟩
        · exact absurd hor (by decide)
        · exact h2 hor
      rw [hz]
      simp [countConnectEdgesFirst]

/-- C5 (amended): with two device instances sharing one transport connection,
every last-will registration is made by the first-created instance and there
is exactly one per connect edge of that instance — reconnect cycles of the
non-first device add none, but each reconnect of the first-created instance
issues one further `set_will` call. -/
theorem C5_will_per_first_connect_edge (env : Env) (d1 d2 : Device)
    (evs : List (Bool × Bool)) (h1 : d1.instance_number = 1)
    (h2 : d2.instance_number ≠ 1) :
    countSetWill (run_pair env (d1, d2) evs).2
      = countConnectEdgesFirst d1._mqtt_connected evs :=
  run_pair_countSetWill env evs d1 d2 h1 h2

/-- Witness for C5 (amended) at the sample pair: connect both, then disconnect
and reconnect the first device. -/
theorem C5_will_per_first_connect_edge_witness :
    countSetWill (run_pair sampleEnv (sampleDevice, sampleDevice2)
        [(true, true), (false, true), (true, false), (true, true)]).2
      = countConnectEdgesFirst sampleDevice._mqtt_connected
          [(true, true), (false, true), (true, false), (true, true)] :=
  C5_will_per_first_connect_edge sampleEnv sampleDevice sampleDevice2
    [(true, true), (false, true), (true, false), (true, true)] rfl (by decide)

/-- Counterexample to C5 as stated: with the two sample devices sharing one
transport, the run "connect 1, connect 2, disconnect 1, reconnect 1" makes
two last-will registration calls in total, not one — a reconnect of the
first-created instance repeats the registration. -/
theorem C5_counterexample :
    countSetWill (run_pair sampleEnv (sampleDevice, sampleDevice2)
        [(true, true), (false, true), (true, false), (true, true)]).2 = 2 ∧
    ¬ (countSetWill (run_pair sampleEnv (sampleDevice, sampleDevice2)
        [(true, true), (false, true), (true, false), (true, true)]).2 = 1) := by
  decide

end Homie
